import Mathlib

/-!
# Verification of the QSR-Scraper core pipeline

A shallow embedding, in Lean 4, of the core of the QSR-Scraper repository:

* the business-identifier hashing used by the transformers
  (`gyg_transformer.py`, `yochi_transformer.py`);
* the plugin factory (`core/plugin_factory.py`);
* the orchestrator pipeline (`core/orchestrator.py`), modelled as an
  event-trace semantics in which the outcome of every Python-level effect
  (fetch, parse, transform, save) is supplied by an oracle, so that a raised
  exception at any stage is representable;
* the bounded-concurrency semaphore of `Orchestrator.run`, modelled as a
  small-step transition system;
* the HTTP fetcher retry loop (`plugins/fetchers/http_fetcher.py`);
* the buffered relational sink (`plugins/storage/postgres_storage.py`).

Machine integers do not occur in the original (Python), except inside the
hash primitives, which are modelled on `Nat` with explicit reduction
modulo `2 ^ 32`.
-/

namespace QSR

/-! ## 32-bit word helpers (for `hashlib.sha1` / `hashlib.sha256`) -/

/-- Truncate a natural number to a 32-bit word. -/
def w32 (n : Nat) : Nat := n % 4294967296

/-- Rotate a 32-bit word left by `b` bits. -/
def rotl32 (b n : Nat) : Nat := w32 ((n <<< b) ||| (n >>> (32 - b)))

/-- Rotate a 32-bit word right by `b` bits. -/
def rotr32 (b n : Nat) : Nat := w32 ((n >>> b) ||| (n <<< (32 - b)))

/-- Bitwise complement of a 32-bit word. -/
def not32 (n : Nat) : Nat := n ^^^ 4294967295

/-- Big-endian byte decomposition of `n` into `k` bytes. -/
def toBytesBE (k n : Nat) : List Nat :=
  (List.range k).map (fun i => (n >>> (8 * (k - 1 - i))) % 256)

/-- UTF-8 bytes of a string (`str.encode("utf-8")`). -/
def strBytes (s : String) : List Nat :=
  s.toUTF8.toList.map (fun b => b.toNat)

/-- Merkle–Damgård padding shared by SHA-1 and SHA-256: append `0x80`,
then zeros up to 56 bytes mod 64, then the bit length as 8 big-endian
bytes. -/
def padMessage (msg : List Nat) : List Nat :=
  let len := msg.length
  let padZeros := (119 - len % 64) % 64
  msg ++ [128] ++ List.replicate padZeros 0 ++ toBytesBE 8 (len * 8)

/-- Split a padded message into its 64-byte blocks. -/
def blocksOf64 (padded : List Nat) : List (List Nat) :=
  (List.range (padded.length / 64)).map (fun i => ((padded.drop (64 * i)).take 64))

/-- The sixteen 32-bit big-endian words of one 64-byte block. -/
def blockWordsBE (block : List Nat) : List Nat :=
  (List.range 16).map (fun i =>
    (block.getD (4 * i) 0) <<< 24 + (block.getD (4 * i + 1) 0) <<< 16 +
    (block.getD (4 * i + 2) 0) <<< 8 + (block.getD (4 * i + 3) 0))

/-! ## SHA-1 (`hashlib.sha1`) -/

/-- SHA-1 message schedule: extend the 16 block words to 80 words. -/
def sha1Schedule (ws : List Nat) : Array Nat :=
  (List.range' 16 64).foldl
    (fun w i =>
      w.push (rotl32 1 (w.getD (i - 3) 0 ^^^ w.getD (i - 8) 0 ^^^
                        w.getD (i - 14) 0 ^^^ w.getD (i - 16) 0)))
    (List.toArray ws)

/-- The SHA-1 round function and constant for round `i`. -/
def sha1FK (i b c d : Nat) : Nat × Nat :=
  if i < 20 then ((b &&& c) ||| (not32 b &&& d), 1518500249)
  else if i < 40 then (b ^^^ c ^^^ d, 1859775393)
  else if i < 60 then ((b &&& c) ||| (b &&& d) ||| (c &&& d), 2400959708)
  else (b ^^^ c ^^^ d, 3395469782)

/-- One SHA-1 round. -/
def sha1Round (st : Nat × Nat × Nat × Nat × Nat) (iw : Nat × Nat) :
    Nat × Nat × Nat × Nat × Nat :=
  let (a, b, c, d, e) := st
  let (i, wi) := iw
  let (f, k) := sha1FK i b c d
  (w32 (rotl32 5 a + f + e + k + wi), a, rotl32 30 b, c, d)

/-- Process one 64-byte block into the running SHA-1 state. -/
def sha1Block (h : Nat × Nat × Nat × Nat × Nat) (block : List Nat) :
    Nat × Nat × Nat × Nat × Nat :=
  let (h0, h1, h2, h3, h4) := h
  let sched := (sha1Schedule (blockWordsBE block)).toList
  let (a, b, c, d, e) := sched.enum.foldl sha1Round h
  (w32 (h0 + a), w32 (h1 + b), w32 (h2 + c), w32 (h3 + d), w32 (h4 + e))

/-- SHA-1 digest of a byte list, as 20 bytes. -/
def sha1Bytes (msg : List Nat) : List Nat :=
  let init : Nat × Nat × Nat × Nat × Nat :=
    (1732584193, 4023233417, 2562383102, 271733878, 3285377520)
  let (h0, h1, h2, h3, h4) := (blocksOf64 (padMessage msg)).foldl sha1Block init
  [h0, h1, h2, h3, h4].flatMap (toBytesBE 4)

/-- Hexadecimal digit character. -/
def hexChar (n : Nat) : Char :=
  "0123456789abcdef".toList.getD n 'x'

/-- Lower-case hexadecimal rendering of a byte list (`.hexdigest()`). -/
def bytesToHexStr (bs : List Nat) : String :=
  String.mk (bs.flatMap (fun b => [hexChar (b / 16), hexChar (b % 16)]))

/-- `hashlib.sha1(s.encode("utf-8")).hexdigest()`. -/
def sha1Hex (s : String) : String := bytesToHexStr (sha1Bytes (strBytes s))

/-! ## SHA-256 (`hashlib.sha256`) -/

/-- The SHA-256 round constants. -/
def sha256K : List Nat :=
  [1116352408, 1899447441, 3049323471, 3921009573, 961987163, 1508970993,
   2453635748, 2870763221, 3624381080, 310598401, 607225278, 1426881987,
   1925078388, 2162078206, 2614888103, 3248222580, 3835390401, 4022224774,
   264347078, 604807628, 770255983, 1249150122, 1555081692, 1996064986,
   2554220882, 2821834349, 2952996808, 3210313671, 3336571891, 3584528711,
   113926993, 338241895, 666307205, 773529912, 1294757372, 1396182291,
   1695183700, 1986661051, 2177026350, 2456956037, 2730485921, 2820302411,
   3259730800, 3345764771, 3516065817, 3600352804, 4094571909, 275423344,
   430227734, 506948616, 659060556, 883997877, 958139571, 1322822218,
   1537002063, 1747873779, 1955562222, 2024104815, 2227730452, 2361852424,
   2428436474, 2756734187, 3204031479, 3329325298]

/-- SHA-256 message schedule: extend the 16 block words to 64 words. -/
def sha256Schedule (ws : List Nat) : Array Nat :=
  (List.range' 16 48).foldl
    (fun w i =>
      let w15 := w.getD (i - 15) 0
      let w2 := w.getD (i - 2) 0
      let s0 := rotr32 7 w15 ^^^ rotr32 18 w15 ^^^ (w15 >>> 3)
      let s1 := rotr32 17 w2 ^^^ rotr32 19 w2 ^^^ (w2 >>> 10)
      w.push (w32 (w.getD (i - 16) 0 + s0 + w.getD (i - 7) 0 + s1)))
    (List.toArray ws)

/-- SHA-256 working state: eight 32-bit words. -/
structure Sha256State where
  a : Nat
  b : Nat
  c : Nat
  d : Nat
  e : Nat
  f : Nat
  g : Nat
  h : Nat
deriving Repr, DecidableEq

/-- One SHA-256 round. -/
def sha256Round (st : Sha256State) (kw : Nat × Nat) : Sha256State :=
  let (ki, wi) := kw
  let s1 := rotr32 6 st.e ^^^ rotr32 11 st.e ^^^ rotr32 25 st.e
  let ch := (st.e &&& st.f) ^^^ (not32 st.e &&& st.g)
  let temp1 := w32 (st.h + s1 + ch + ki + wi)
  let s0 := rotr32 2 st.a ^^^ rotr32 13 st.a ^^^ rotr32 22 st.a
  let maj := (st.a &&& st.b) ^^^ (st.a &&& st.c) ^^^ (st.b &&& st.c)
  let temp2 := w32 (s0 + maj)
  { a := w32 (temp1 + temp2), b := st.a, c := st.b, d := st.c,
    e := w32 (st.d + temp1), f := st.e, g := st.f, h := st.g }

/-- Process one 64-byte block into the running SHA-256 state. -/
def sha256Block (st : Sha256State) (block : List Nat) : Sha256State :=
  let sched := (sha256Schedule (blockWordsBE block)).toList
  let r := (sha256K.zip sched).foldl sha256Round st
  { a := w32 (st.a + r.a), b := w32 (st.b + r.b), c := w32 (st.c + r.c),
    d := w32 (st.d + r.d), e := w32 (st.e + r.e), f := w32 (st.f + r.f),
    g := w32 (st.g + r.g), h := w32 (st.h + r.h) }

/-- SHA-256 digest of a byte list, as 32 bytes. -/
def sha256Bytes (msg : List Nat) : List Nat :=
  let init : Sha256State :=
    { a := 1779033703, b := 3144134277, c := 1013904242, d := 2773480762,
      e := 1359893119, f := 2600822924, g := 528734635, h := 1541459225 }
  let r := (blocksOf64 (padMessage msg)).foldl sha256Block init
  [r.a, r.b, r.c, r.d, r.e, r.f, r.g, r.h].flatMap (toBytesBE 4)

/-- `hashlib.sha256(s.encode("utf-8")).hexdigest()`. -/
def sha256Hex (s : String) : String := bytesToHexStr (sha256Bytes (strBytes s))

/-! ## Business identifiers (C3)

`GYGTransformer.generate_business_id` (`gyg_transformer.py`, lines 580-583):

    data_string = f"{name.lower().strip()}|{address.lower().strip()}"
    return hashlib.sha1(data_string.encode("utf-8")).hexdigest()

`YochiTransformer._generate_business_id` (`yochi_transformer.py`, lines
137-153) is identical except that it uses SHA-256 and keeps the first 16
hexadecimal characters. -/

/-- `str.lower()` (ASCII case mapping, like Lean's `Char.toLower`),
written over the character list so that it reduces by computation. -/
def pyLower (s : String) : String := String.mk (s.data.map Char.toLower)

/-- `str.strip()`: drop leading and trailing whitespace. -/
def pyStrip (s : String) : String :=
  String.mk (((s.data.dropWhile Char.isWhitespace).reverse.dropWhile
    Char.isWhitespace).reverse)

/-- The `"name|address"` string hashed by both generators: each component
lower-cased (`str.lower`) and stripped of leading/trailing whitespace
(`str.strip`). -/
def dataString (name address : String) : String :=
  pyStrip (pyLower name) ++ "|" ++ pyStrip (pyLower address)

/-- `GYGTransformer.generate_business_id`. -/
def generate_business_id (name address : String) : String :=
  sha1Hex (dataString name address)

/-- `YochiTransformer._generate_business_id`. -/
def yochiGenerateBusinessId (name address : String) : String :=
  (sha256Hex (dataString name address)).take 16

end QSR


namespace QSR

/-! ## Plugin factory (`core/plugin_factory.py`)

Plugin classes are modelled by the properties of theirs that the factory's
control flow inspects or trips over: whether the reflective module import
resolves (`_import_plugin_class` returning a class vs. `None`), which
constructor parameters the class declares, and whether its constructor
body raises.  A raised Python exception is represented by the failure
branch of the factory function that catches it. -/

/-- Opaque record payload produced by a parser or transformer. -/
abbrev Rec := Nat

/-- A Python exception message. -/
abbrev Err := String

/-- A fetcher plugin class, as seen by `create_fetcher`. -/
structure FetcherClass where
  importOk : Bool
  initRaises : Bool
deriving DecidableEq, Repr

/-- A parser plugin class, as seen by `create_parser`.  `acceptsFetcher`
records whether `__init__` declares a `fetcher` parameter;
`isKfc` records whether the class is `KfcParser` (the orchestrator
branches on `isinstance(parser, KfcParser)`). -/
structure ParserClass where
  importOk : Bool
  acceptsFetcher : Bool
  initRaises : Bool
  isKfc : Bool
deriving DecidableEq, Repr

/-- A transformer plugin class, as seen by `create_transformer`.
`acceptsApiKey` records whether `__init__` declares an `api_key`
parameter; `requiresApiKey` records whether that parameter has no
default, so that calling the constructor without it raises `TypeError`. -/
structure TransformerClass where
  importOk : Bool
  acceptsApiKey : Bool
  requiresApiKey : Bool
  initRaises : Bool
deriving DecidableEq, Repr

/-- A storage plugin class, as seen by `create_storage_plugins`.
`hasClose` records whether the instance exposes a callable `close`. -/
structure StorageClass where
  importOk : Bool
  initRaises : Bool
  hasClose : Bool
deriving DecidableEq, Repr

/-- Outcomes of the Python-level effects of scraping one entry URL in
`Orchestrator._scrape_url`: what the fetch, parse and transform calls
return (`Except.error` is a raised exception), and which storage sinks
raise from `save` (indexed by sink position).  The orchestrator gathers
the `save` exceptions with `return_exceptions=True` and only logs them. -/
structure UrlBehavior where
  url : String
  fetchResult : Except Err (Option String × Option String × Option Nat) :=
    .ok (none, none, none)
  parseResult : Except Err (List Rec) := .ok []
  transformResult : Except Err (List Rec) := .ok []
  saveRaises : Nat → Bool := fun _ => false

/-- Outcomes of the Python-level effects of the synthetic `KfcParser`
invocation in `Orchestrator._scrape_website` (the branch that ignores
`start_urls` and calls `parse` once with `content=None`). -/
structure KfcBehavior where
  parseResult : Except Err (List Rec) := .ok []
  transformResult : Except Err (List Rec) := .ok []
  saveRaises : Nat → Bool := fun _ => false

/-- One site's entry in the configured site map, together with the
oracle describing what that site's plugins do at run time. -/
structure SiteConfig where
  enabled : Bool := true
  fetcher : Option FetcherClass := none
  parser : Option ParserClass := none
  transformer : Option TransformerClass := none
  storage : List StorageClass := []
  apiKeyProvided : Bool := false
  startUrls : List UrlBehavior := []
  kfc : KfcBehavior := {}

/-- A successfully constructed parser instance.  `fetcherInjected` is
true when the factory passed the fetcher to the constructor. -/
structure ParserInst where
  isKfc : Bool
  fetcherInjected : Bool
deriving DecidableEq, Repr

/-- A successfully constructed storage instance. -/
structure StorageInst where
  hasClose : Bool
deriving DecidableEq, Repr

/-- `PluginFactory.create_fetcher`: `None` when no fetcher is named,
when the import fails, or when `fetcher_class(config=...)` raises
(the exception is caught and logged). -/
def createFetcher (cfg : SiteConfig) : Option Unit :=
  match cfg.fetcher with
  | none => none
  | some fc => if fc.importOk && !fc.initRaises then some () else none

/-- `PluginFactory.create_parser`: the factory always calls
`parser_class(fetcher=fetcher)`; a class whose constructor declares no
`fetcher` parameter raises `TypeError`, which is caught, yielding `None`. -/
def createParser (cfg : SiteConfig) : Option ParserInst :=
  match cfg.parser with
  | none => none
  | some pc =>
    if pc.importOk then
      if pc.acceptsFetcher && !pc.initRaises then
        some { isKfc := pc.isKfc, fetcherInjected := true }
      else none
    else none

/-- `PluginFactory.create_transformer`: `None` when no transformer is
named or the import fails; otherwise the factory calls
`transformer_class(api_key=...)` when `"api_key"` is in
`transformer_options` and `transformer_class()` otherwise, and any
exception from the constructor is caught, yielding `None`. -/
def createTransformer (cfg : SiteConfig) : Option Unit :=
  match cfg.transformer with
  | none => none
  | some tc =>
    if tc.importOk then
      if (if cfg.apiKeyProvided then !tc.acceptsApiKey else tc.requiresApiKey)
          || tc.initRaises then none
      else some ()
    else none

/-- `PluginFactory.create_storage_plugins`: every named sink whose import
and construction succeed; a failing sink is logged and dropped. -/
def createStoragePlugins (cfg : SiteConfig) : List StorageInst :=
  cfg.storage.filterMap (fun sc =>
    if sc.importOk then
      if sc.initRaises then none else some { hasClose := sc.hasClose }
    else none)

/-- The tuple returned by `PluginFactory.create_plugins_for_site`. -/
structure Plugins where
  parser : ParserInst
  hasTransformer : Bool
  sinks : List StorageInst
deriving DecidableEq, Repr

/-- `PluginFactory.create_plugins_for_site`: raises `ValueError` when
fetcher or parser creation fails; the transformer and storage results
are used as returned, without any failure check. -/
def createPluginsForSite (siteName : String) (cfg : SiteConfig) :
    Except Err Plugins :=
  match createFetcher cfg with
  | none => .error ("Failed to create fetcher for site " ++ siteName)
  | some _ =>
    match createParser cfg with
    | none => .error ("Failed to create parser for site " ++ siteName)
    | some p =>
      .ok { parser := p, hasTransformer := (createTransformer cfg).isSome,
            sinks := createStoragePlugins cfg }

/-! ## Orchestrator pipeline (`core/orchestrator.py`)

The pipeline is modelled by the trace of plugin calls it makes.  Every
site-level Python value that decides control flow comes from the
`SiteConfig` oracle. -/

/-- A plugin call made by the orchestrator. -/
inductive Event where
  | load (site : String)
  | fetch (site url : String)
  | parse (site : String)
  | transform (site : String)
  | save (site : String) (sink : Nat) (batch : List Rec)
  | close (site : String) (sink : Nat)
deriving DecidableEq, Repr

/-- The site a call belongs to. -/
def Event.site : Event → String
  | .load s => s
  | .fetch s _ => s
  | .parse s => s
  | .transform s => s
  | .save s _ _ => s
  | .close s _ => s

/-- Python falsiness of an `Optional[str]`: `None` and `""` are falsy. -/
def pyFalsyStr : Option String → Bool
  | none => true
  | some s => s == ""

/-- The store-and-close tail of `Orchestrator._scrape_url`: `save` is
scheduled for every sink and awaited with
`asyncio.gather(..., return_exceptions=True)`, so every sink receives
the batch whatever its siblings do; then `close` is called on each sink
exposing one, with exceptions swallowed likewise. -/
def storeAndClose (site : String) (sinks : List StorageInst)
    (batch : List Rec) : List Event :=
  (List.range sinks.length).map (fun i => Event.save site i batch) ++
    sinks.enum.filterMap (fun p =>
      if p.2.hasClose then some (Event.close site p.1) else none)

/-- `Orchestrator._scrape_url`: fetch (an exception here is not caught
inside `_scrape_url` and propagates to the caller), then parse and
transform inside `try`/`except` blocks, then store.  The returned
`Option Err` is the exception escaping the call, if any. -/
def scrapeUrl (site : String) (pl : Plugins) (ub : UrlBehavior) :
    List Event × Option Err :=
  match ub.fetchResult with
  | .error e => ([Event.fetch site ub.url], some e)
  | .ok (content, _, _) =>
    if pyFalsyStr content then ([Event.fetch site ub.url], none)
    else
      match ub.parseResult with
      | .error _ => ([Event.fetch site ub.url, Event.parse site], none)
      | .ok parsed =>
        if parsed.isEmpty then ([Event.fetch site ub.url, Event.parse site], none)
        else if pl.hasTransformer then
          match ub.transformResult with
          | .error _ =>
            ([Event.fetch site ub.url, Event.parse site, Event.transform site], none)
          | .ok td =>
            if td.isEmpty then
              ([Event.fetch site ub.url, Event.parse site, Event.transform site], none)
            else
              ([Event.fetch site ub.url, Event.parse site, Event.transform site] ++
                 storeAndClose site pl.sinks td, none)
        else
          ([Event.fetch site ub.url, Event.parse site] ++
             storeAndClose site pl.sinks parsed, none)

/-- The sequential `await storage.save(...)` loop of the `KfcParser`
branch of `_scrape_website`: it runs inside the branch's single
`try`/`except`, so the first sink that raises receives the call but
aborts the loop (later sinks are never called). -/
def seqSaves (site : String) (batch : List Rec) (raises : Nat → Bool) :
    List (Nat × StorageInst) → List Event
  | [] => []
  | (i, _) :: rest =>
    if raises i then [Event.save site i batch]
    else Event.save site i batch :: seqSaves site batch raises rest

/-- The `for url in start_urls` loop of `_scrape_website`: URLs are
awaited sequentially and an exception escaping `_scrape_url` aborts the
remaining URLs of the site. -/
def scrapeUrls (site : String) (pl : Plugins) :
    List UrlBehavior → List Event × Option Err
  | [] => ([], none)
  | ub :: rest =>
    match scrapeUrl site pl ub with
    | (evs, some e) => (evs, some e)
    | (evs, none) =>
      (evs ++ (scrapeUrls site pl rest).1, (scrapeUrls site pl rest).2)

/-- `Orchestrator._scrape_website`: the `KfcParser` branch performs one
synthetic parse/transform/store run inside a single `try`/`except`
(never letting an exception escape); every other parser walks
`start_urls` through `_scrape_url`. -/
def scrapeWebsite (site : String) (cfg : SiteConfig) (pl : Plugins) :
    List Event × Option Err :=
  if pl.parser.isKfc then
    match cfg.kfc.parseResult with
    | .error _ => ([Event.parse site], none)
    | .ok parsed =>
      if parsed.isEmpty then ([Event.parse site], none)
      else if pl.hasTransformer then
        match cfg.kfc.transformResult with
        | .error _ => ([Event.parse site, Event.transform site], none)
        | .ok td =>
          ([Event.parse site, Event.transform site] ++
             (if td.isEmpty then []
              else seqSaves site td cfg.kfc.saveRaises pl.sinks.enum), none)
      else
        ([Event.parse site] ++
           seqSaves site parsed cfg.kfc.saveRaises pl.sinks.enum, none)
  else
    scrapeUrls site pl cfg.startUrls

/-- The `throttled_scrape` closure of `Orchestrator.run`: load plugins
(`_load_and_validate_plugins` catches every exception and yields `None`,
upon which the site is skipped), then scrape, with the whole body inside
`try`/`except Exception`, so nothing propagates out of the site task. -/
def throttledScrape (site : String) (cfg : SiteConfig) : List Event :=
  Event.load site ::
    match createPluginsForSite site cfg with
    | .error _ => []
    | .ok pl => (scrapeWebsite site cfg pl).1

/-- The orchestrator's constructor arguments: `global_settings` (numeric
settings looked up by key) and the configured site map. -/
structure OrchestratorConfig where
  globalSettings : List (String × Nat) := []
  websites : List (String × SiteConfig) := []

/-- `self.max_concurrent_workers`: read from `global_settings`, default 5. -/
def maxConcurrentWorkers (cfg : OrchestratorConfig) : Nat :=
  (cfg.globalSettings.lookup "max_concurrent_workers").getD 5

/-- The sites for which `Orchestrator.run` creates a task: entries whose
`enabled` flag (default true) is not false are kept. -/
def enabledSites (cfg : OrchestratorConfig) : List (String × SiteConfig) :=
  cfg.websites.filter (fun p => p.2.enabled)

/-- `Orchestrator.run`: one task per enabled site, awaited jointly; the
result records, for every enabled site, the trace its task produced.
(The tasks share no state, so each site's trace is a function of its own
entry alone; inter-site interleaving is modelled separately by the
semaphore transition system below.) -/
def orchestratorRun (cfg : OrchestratorConfig) : List (String × List Event) :=
  (enabledSites cfg).map (fun p => (p.1, throttledScrape p.1 p.2))

end QSR

namespace QSR

/-! ## Concurrency throttling (`Orchestrator.run`, C2)

`run` wraps every site task in `async with semaphore` where
`semaphore = asyncio.Semaphore(self.max_concurrent_workers)`.  The
scheduling is modelled as a small-step transition system over the task
list: a pending task may enter its pipeline only while fewer than
`limit` tasks hold the semaphore, and a task releases the semaphore when
its body finishes, normally or with a caught error (`async with`
releases on both paths). -/

/-- The control state of one site task. -/
inductive TaskStatus where
  | pending
  | active
  | doneOk
  | doneErr
deriving DecidableEq, Repr

/-- The number of tasks currently holding the semaphore. -/
def activeCount (s : List TaskStatus) : Nat :=
  s.countP (fun t => t == TaskStatus.active)

/-- One scheduler step under a semaphore of capacity `limit`. -/
inductive SemStep (limit : Nat) : List TaskStatus → List TaskStatus → Prop where
  | acquire (s : List TaskStatus) (i : Nat) (hi : i < s.length)
      (hp : s.get ⟨i, hi⟩ = TaskStatus.pending)
      (hroom : activeCount s < limit) :
      SemStep limit s (s.set i TaskStatus.active)
  | finishOk (s : List TaskStatus) (i : Nat) (hi : i < s.length)
      (ha : s.get ⟨i, hi⟩ = TaskStatus.active) :
      SemStep limit s (s.set i TaskStatus.doneOk)
  | finishErr (s : List TaskStatus) (i : Nat) (hi : i < s.length)
      (ha : s.get ⟨i, hi⟩ = TaskStatus.active) :
      SemStep limit s (s.set i TaskStatus.doneErr)

/-- States reachable from `init` by scheduler steps. -/
inductive SemReachable (limit : Nat) (init : List TaskStatus) :
    List TaskStatus → Prop where
  | refl : SemReachable limit init init
  | step {s s' : List TaskStatus} :
      SemReachable limit init s → SemStep limit s s' → SemReachable limit init s'

/-- The initial task list of `Orchestrator.run`: one pending task per
enabled site. -/
def initialTasks (cfg : OrchestratorConfig) : List TaskStatus :=
  (enabledSites cfg).map (fun _ => TaskStatus.pending)

/-! ## HTTP fetcher (`plugins/fetchers/http_fetcher.py`, C8)

`AsyncHTTPXFetcher.fetch` merges its default and per-call configs, then
runs a retry loop.  Each loop iteration's outcome is supplied by an
oracle indexed by the current `retry_count`. -/

/-- The outcome of one `httpx` request attempt, as classified by the
`except` clauses of `AsyncHTTPXFetcher.fetch`: a successful 2xx response;
a transient transport error (the `httpx.RequestError` family), which is
retried; a non-2xx status (`raise_for_status` raising
`httpx.HTTPStatusError`), which breaks; any other exception, which
breaks. -/
inductive Attempt where
  | success (content contentType : String) (status : Nat)
  | transientError (e : Err)
  | statusError (status : Nat)
  | unexpectedError (e : Err)
deriving DecidableEq, Repr

/-- The merged-config fields that decide `fetch`'s control flow:
`use_proxy` (default false), the proxy credentials, and `max_retries`
(default 3).  Headers, timeout and backoff delays do not affect the
returned value. -/
structure FetchConfig where
  useProxy : Bool := false
  proxyUsername : Option String := none
  proxyPassword : Option String := none
  maxRetries : Nat := 3
deriving Repr

/-- `fetch`'s return type: `(content, content_type, status_code)`. -/
abbrev FetchResult := Option String × Option String × Option Nat

/-- The `while retry_count <= max_retries` loop of `fetch`, entered with
`retry_count = i`: a success returns the response triple; a transient
error increments `retry_count` and retries; a status error or unexpected
error breaks; falling out of the loop returns `(None, None, None)`. -/
def fetchLoop (att : Nat → Attempt) (maxRetries i : Nat) : FetchResult :=
  if i ≤ maxRetries then
    match att i with
    | .success c ct s => (some c, some ct, some s)
    | .transientError _ => fetchLoop att maxRetries (i + 1)
    | .statusError _ => (none, none, none)
    | .unexpectedError _ => (none, none, none)
  else (none, none, none)
termination_by maxRetries + 1 - i

/-- `AsyncHTTPXFetcher.fetch`: when the proxy is enabled but a credential
is missing (`None` or empty, both falsy), return `(None, None, None)`
at once; otherwise run the retry loop from `retry_count = 0`. -/
def fetcherFetch (cfg : FetchConfig) (att : Nat → Attempt) : FetchResult :=
  if cfg.useProxy &&
      (pyFalsyStr cfg.proxyUsername || pyFalsyStr cfg.proxyPassword) then
    (none, none, none)
  else fetchLoop att cfg.maxRetries 0

end QSR

namespace QSR

/-! ## Relational sink (`plugins/storage/postgres_storage.py`, C7 and C10)

Records handed to `PostgresStorage.save` are Python dicts; they are
modelled as association lists from field name to string value (`None`
and a missing key are both rendered as the empty string, matching the
`(item.get(k) or "")` idiom; Python truthiness of a value is
non-emptiness). -/

/-- A raw record handed to `PostgresStorage.save`. -/
abbrev Item := List (String × String)

/-- `item.get(k, "") or ""`. -/
def itemGet (it : Item) (k : String) : String := (it.lookup k).getD ""

/-- `data[0].get("source", "unknown")`. -/
def sourceOf (d : Item) : String := (d.lookup "source").getD "unknown"

/-- The fields whose cleaned values form the dedup key in
`_deduplicate_data`. -/
def dedupComponents : List String :=
  ["business_name", "street_address", "suburb", "state", "postcode"]

/-- The composite key of `_deduplicate_data`:
`"|".join((item.get(c, "") or "").strip().lower() for c in components)`. -/
def locationKey (it : Item) : String :=
  String.intercalate "|" (dedupComponents.map (fun c => pyLower (pyStrip (itemGet it c))))

/-- `sum(1 for v in item.values() if v)`: the number of truthy values. -/
def truthyCount (it : Item) : Nat := it.countP (fun p => p.2 ≠ "")

/-- Replace the value stored under `key` (Python dict assignment on an
existing key keeps its position). -/
def dedupReplace (acc : List (String × Item)) (key : String) (it : Item) :
    List (String × Item) :=
  acc.map (fun p => if p.1 = key then (key, it) else p)

/-- One step of `_deduplicate_data`'s loop over `data`: keep the record
with more truthy values under each key; a new key is appended (Python
dict insertion order). -/
def dedupInsert (acc : List (String × Item)) (it : Item) : List (String × Item) :=
  let key := locationKey it
  match acc.lookup key with
  | some existing =>
    if truthyCount it > truthyCount existing then dedupReplace acc key it else acc
  | none => acc ++ [(key, it)]

/-- `PostgresStorage._deduplicate_data`. -/
def deduplicateData (data : List Item) : List Item :=
  (data.foldl dedupInsert []).map (fun p => p.2)

/-- `PostgresStorage._validate_location`: `business_id` and
`business_name` must be truthy, and `street_address`, `state` and
`suburb` non-empty after stripping (`postcode` is cleaned but not
required). -/
def validateLocation (it : Item) : Bool :=
  itemGet it "business_id" != "" && itemGet it "business_name" != "" &&
    pyStrip (itemGet it "street_address") != "" &&
    pyStrip (itemGet it "state") != "" && pyStrip (itemGet it "suburb") != ""

/-- The in-memory buffer of `MemoryBuffer`: per-source record lists
(`defaultdict(list)`). -/
abbrev Buffer := List (String × List Item)

/-- `self.buffer.get(source, [])`. -/
def bufGet (buf : Buffer) (src : String) : List Item := (buf.lookup src).getD []

/-- `self.buffer[source] = items` on a `defaultdict`: overwrite the
existing entry in place (dict keys are unique, so the first match is the
entry), or append a new one. -/
def bufSet : Buffer → String → List Item → Buffer
  | [], src, items => [(src, items)]
  | p :: rest, src, items =>
    if p.1 = src then (src, items) :: rest else p :: bufSet rest src items

/-- `MemoryBuffer.add`. -/
def bufAdd (buf : Buffer) (src : String) (it : Item) : Buffer :=
  bufSet buf src (bufGet buf src ++ [it])

/-- Repeated `MemoryBuffer.add`, as in `save`'s validation loop and the
put-back loops of `_flush_buffer`. -/
def bufAddAll (buf : Buffer) (src : String) (items : List Item) : Buffer :=
  items.foldl (fun b it => bufAdd b src it) buf

/-- `MemoryBuffer.size()` with no source argument. -/
def bufSize (buf : Buffer) : Nat := (buf.map (fun p => p.2.length)).sum

/-- `MemoryBuffer.max_size`: `PostgresStorage.__init__` constructs
`MemoryBuffer(max_size=100)`. -/
def memoryBufferMaxSize : Nat := 100

/-- `MemoryBuffer.should_flush(source)`:
`len(self.buffer.get(source, [])) >= self.max_size`. -/
def shouldFlush (buf : Buffer) (src : String) : Bool :=
  (bufGet buf src).length ≥ memoryBufferMaxSize

/-- The storage-options dict, reduced to the one fact `_flush_buffer`
branches on: whether `config.get("connection_string") or
os.environ.get("DATABASE_URL")` yields a connection string. -/
structure PgConfig where
  connOk : Bool
deriving DecidableEq, Repr

/-- The mutable state of one `PostgresStorage` instance: the memory
buffer and the `last_config` remembered by `save` for `close`. -/
structure PgState where
  buffer : Buffer := []
  lastConfig : Option PgConfig := none
deriving DecidableEq, Repr

/-- A committed database transaction (the only way this model writes to
the database): one successful `_flush_buffer` of `items` for `source`. -/
inductive DbEvent where
  | flush (source : String) (items : List Item)
deriving DecidableEq, Repr

/-- `PostgresStorage._flush_buffer`: pop the source's buffered items; on
a missing connection string, or when the database session fails (the
oracle `flushOk`), the exception is caught and the items are put back in
the buffer; on success the items are committed in one transaction. -/
def flushBuffer (st : PgState) (src : String) (cfg : PgConfig)
    (flushOk : String → Bool) : PgState × List DbEvent :=
  let items := bufGet st.buffer src
  let cleared := bufSet st.buffer src []
  if items.isEmpty then ({ st with buffer := cleared }, [])
  else if !cfg.connOk then ({ st with buffer := bufAddAll cleared src items }, [])
  else if flushOk src then ({ st with buffer := cleared }, [DbEvent.flush src items])
  else ({ st with buffer := bufAddAll cleared src items }, [])

/-- `PostgresStorage.save`: remember the config, take the source from the
first record, deduplicate, validate, append the surviving records to the
source's buffer (all under `self.lock`), and flush only if the buffer
reached `max_size`.  The body is wrapped in `try`/`except Exception`, so
`save` never raises. -/
def pgSave (st : PgState) (data : List Item) (cfg : PgConfig)
    (flushOk : String → Bool) : PgState × List DbEvent :=
  match data with
  | [] => (st, [])
  | d :: _ =>
    let st1 : PgState := { st with lastConfig := some cfg }
    let src := sourceOf d
    let valid := (deduplicateData data).filter validateLocation
    let buf1 := bufAddAll st1.buffer src valid
    if shouldFlush buf1 src then flushBuffer { st1 with buffer := buf1 } src cfg flushOk
    else ({ st1 with buffer := buf1 }, [])

/-- `PostgresStorage.close`: when the buffer is non-empty and a
`last_config` was recorded, flush every source that still has buffered
items; the whole body is wrapped in `try`/`except`, so `close` never
raises. -/
def pgClose (st : PgState) (flushOk : String → Bool) : PgState × List DbEvent :=
  if bufSize st.buffer > 0 then
    match st.lastConfig with
    | some cfg =>
      (st.buffer.map (fun p => p.1)).foldl
        (fun acc src =>
          if (bufGet acc.1.buffer src).length > 0 then
            let r := flushBuffer acc.1 src cfg flushOk
            (r.1, acc.2 ++ r.2)
          else acc)
        (st, [])
    | none => (st, [])
  else (st, [])

/-! ### Status lifecycle (`_update_location_statuses`, C7)

The table is modelled by the columns the three `UPDATE` statements read
and write; timestamps are abstract instants. -/

/-- The `status` column. -/
inductive LocStatus where
  | active
  | closed
  | duplicate
deriving DecidableEq, Repr

/-- One `qsr_locations` row, restricted to the columns
`_update_location_statuses` touches. -/
structure Row where
  business_id : String
  source : String
  status : LocStatus
  missing_count : Nat
  last_seen_date : Option Nat
  closed_date : Option Nat
deriving DecidableEq, Repr

/-- The first `UPDATE`: rows of this source whose id is in the current
scrape and whose status is `ACTIVE` get `last_seen_date = now` and
`missing_count = 0`. -/
def updSeenRow (source : String) (ids : List String) (t : Nat) (r : Row) : Row :=
  if r.source = source ∧ r.business_id ∈ ids ∧ r.status = LocStatus.active then
    { r with last_seen_date := some t, missing_count := 0 }
  else r

/-- The second `UPDATE`: `ACTIVE` rows of this source absent from the
current scrape get `missing_count = missing_count + 1`. -/
def updMissingRow (source : String) (ids : List String) (r : Row) : Row :=
  if r.source = source ∧ r.business_id ∉ ids ∧ r.status = LocStatus.active then
    { r with missing_count := r.missing_count + 1 }
  else r

/-- The third `UPDATE`: `ACTIVE` rows of this source with
`missing_count >= 20` become `CLOSED` with `closed_date = now`.  The
threshold 20 is a literal in the SQL text. -/
def updCloseRow (source : String) (t : Nat) (r : Row) : Row :=
  if r.source = source ∧ r.missing_count ≥ 20 ∧ r.status = LocStatus.active then
    { r with status := LocStatus.closed, closed_date := some t }
  else r

/-- `PostgresStorage._update_location_statuses`: the three `UPDATE`
statements, applied to the table in order. -/
def updateLocationStatuses (tbl : List Row) (source : String)
    (ids : List String) (t : Nat) : List Row :=
  ((tbl.map (updSeenRow source ids t)).map (updMissingRow source ids)).map
    (updCloseRow source t)

/-- Follows the spec's words, for comparison with the code: on each
flush, a seen `ACTIVE` row resets its missing count and refreshes its
last-seen date, an absent `ACTIVE` row increments its missing count,
and an `ACTIVE` row whose missing count reaches the *configurable*
threshold `θ` transitions to `CLOSED` with a closed date. -/
def specStatusUpdateRow (θ : Nat) (source : String) (ids : List String)
    (t : Nat) (r : Row) : Row :=
  if r.source = source ∧ r.status = LocStatus.active then
    if r.business_id ∈ ids then { r with last_seen_date := some t, missing_count := 0 }
    else
      let m := r.missing_count + 1
      if m ≥ θ then
        { r with missing_count := m, status := LocStatus.closed, closed_date := some t }
      else { r with missing_count := m }
  else r

/-- The spec's per-flush status update over the whole table. -/
def specStatusUpdate (θ : Nat) (tbl : List Row) (source : String)
    (ids : List String) (t : Nat) : List Row :=
  tbl.map (specStatusUpdateRow θ source ids t)

end QSR

namespace QSR

/-! ## Concrete scenarios used by the theorems below -/

/-- A healthy site: working fetcher/parser, no transformer, one closable
sink, one entry URL yielding two records. -/
def cfgHealthyB : SiteConfig :=
  { fetcher := some { importOk := true, initRaises := false },
    parser := some { importOk := true, acceptsFetcher := true,
                     initRaises := false, isKfc := false },
    storage := [{ importOk := true, initRaises := false, hasClose := true }],
    startUrls := [{ url := "https://b.example/locations",
                    fetchResult := .ok (some "<html>", some "text/html", some 200),
                    parseResult := .ok [1, 2] }] }

/-- A failing site: its first entry URL's fetch raises (so the exception
escapes `_scrape_url` and `_scrape_website`), and a second entry URL
never gets fetched. -/
def cfgRaisingA : SiteConfig :=
  { fetcher := some { importOk := true, initRaises := false },
    parser := some { importOk := true, acceptsFetcher := true,
                     initRaises := false, isKfc := false },
    storage := [{ importOk := true, initRaises := false, hasClose := true }],
    startUrls := [{ url := "https://a.example/1",
                    fetchResult := .error "RuntimeError: boom" },
                  { url := "https://a.example/2",
                    fetchResult := .ok (some "<html>", some "text/html", some 200),
                    parseResult := .ok [9] }] }

/-- An orchestrator config pairing the failing site with the healthy one. -/
def cfgTwoSites : OrchestratorConfig :=
  { websites := [("site_a", cfgRaisingA), ("site_b", cfgHealthyB)] }

/-- An orchestrator config with `max_concurrent_workers = 2` and three
enabled sites. -/
def cfgThreeSites : OrchestratorConfig :=
  { globalSettings := [("max_concurrent_workers", 2)],
    websites := [("a", {}), ("b", {}), ("c", {})] }

/-- An orchestrator config leaving `max_concurrent_workers` unset. -/
def cfgUnsetWorkers : OrchestratorConfig := {}

/-- A config whose site `a` is disabled and whose site `b` is enabled
(but fails plugin loading: no fetcher named). -/
def cfgDisabledA : OrchestratorConfig :=
  { websites := [("a", { enabled := false,
                         fetcher := some { importOk := true, initRaises := false },
                         parser := some { importOk := true, acceptsFetcher := true,
                                          initRaises := false, isKfc := false },
                         startUrls := [{ url := "https://a.example/x",
                                         fetchResult := .ok (some "x", some "t", some 200),
                                         parseResult := .ok [4] }] }),
                ("b", {})] }

/-- A site naming a transformer whose constructor requires an `api_key`,
with none supplied in `transformer_options`; its parser yields one raw
record. -/
def cfgKeylessTransformer : SiteConfig :=
  { fetcher := some { importOk := true, initRaises := false },
    parser := some { importOk := true, acceptsFetcher := true,
                     initRaises := false, isKfc := false },
    transformer := some { importOk := true, acceptsApiKey := true,
                          requiresApiKey := true, initRaises := false },
    apiKeyProvided := false,
    storage := [{ importOk := true, initRaises := false, hasClose := false }],
    startUrls := [{ url := "https://a.example/stores",
                    fetchResult := .ok (some "body", some "application/json", some 200),
                    parseResult := .ok [42] }] }

/-- A site naming a parser whose constructor declares no `fetcher`
parameter (and would otherwise construct fine). -/
def cfgFetcherlessParser : SiteConfig :=
  { fetcher := some { importOk := true, initRaises := false },
    parser := some { importOk := true, acceptsFetcher := false,
                     initRaises := false, isKfc := false } }

/-- A site whose parser declares a `fetcher` parameter and constructs. -/
def cfgAcceptingParser : SiteConfig :=
  { fetcher := some { importOk := true, initRaises := false },
    parser := some { importOk := true, acceptsFetcher := true,
                     initRaises := false, isKfc := false } }

/-- A `KfcParser` site with two sinks whose first sink raises from
`save`: the synthetic invocation parses one record and stores it. -/
def cfgKfcTwoSinks : SiteConfig :=
  { fetcher := some { importOk := true, initRaises := false },
    parser := some { importOk := true, acceptsFetcher := true,
                     initRaises := false, isKfc := true },
    storage := [{ importOk := true, initRaises := false, hasClose := false },
                { importOk := true, initRaises := false, hasClose := false }],
    kfc := { parseResult := .ok [5], saveRaises := fun i => i == 0 } }

/-- Plugins with two sinks, for exercising `_scrape_url`'s store stage. -/
def plTwoSinks : Plugins :=
  { parser := { isKfc := false, fetcherInjected := true },
    hasTransformer := false,
    sinks := [{ hasClose := false }, { hasClose := true }] }

/-- An entry URL whose first sink raises from `save`. -/
def ubFirstSinkRaises : UrlBehavior :=
  { url := "https://b.example/locations",
    fetchResult := .ok (some "x", some "text/html", some 200),
    parseResult := .ok [3],
    saveRaises := fun i => i == 0 }

/-- A previously seen `ACTIVE` row with four consecutive misses. -/
def rowMissedFour : Row :=
  { business_id := "x", source := "gyg_au", status := LocStatus.active,
    missing_count := 4, last_seen_date := some 90, closed_date := none }

/-- A complete, valid raw record for the relational sink. -/
def itemValid : Item :=
  [("source", "gyg_au"), ("business_id", "x1"), ("business_name", "GYG Sydney"),
   ("street_address", "1 Main St"), ("state", "NSW"), ("suburb", "Sydney"),
   ("postcode", "2000")]

/-- A storage state holding one buffered record for `gyg_au`, with a
usable remembered config. -/
def pgStateSmall : PgState :=
  { buffer := [("gyg_au", [itemValid])], lastConfig := some { connOk := true } }

end QSR

namespace QSR

/-! ## Helper lemmas -/

/-- The status-update passes of the code, composed per row, coincide with
the spec's per-row update at threshold 20. -/
theorem statusRow_code_eq_spec20 (source : String) (ids : List String)
    (t : Nat) (r : Row) :
    updCloseRow source t (updMissingRow source ids (updSeenRow source ids t r)) =
      specStatusUpdateRow 20 source ids t r := by
  by_cases hs : r.source = source <;>
    by_cases hst : r.status = LocStatus.active <;>
    by_cases hid : r.business_id ∈ ids <;>
    by_cases h20 : r.missing_count + 1 ≥ 20 <;>
    simp [updSeenRow, updMissingRow, updCloseRow, specStatusUpdateRow,
      hs, hst, hid, h20]

/-! ## C3: business identifiers -/

/-- C3 (counterexample): the `"|"` separator joining name and address is
not escaped, so the distinct normalized pairs `("a|b", "c")` and
`("a", "b|c")` produce the same data string, hence identical
identifiers — a collision with certainty, not merely with hash-collision
probability. -/
theorem business_id_pipe_collision :
    generate_business_id "a|b" "c" = generate_business_id "a" "b|c" ∧
      yochiGenerateBusinessId "a|b" "c" = yochiGenerateBusinessId "a" "b|c" ∧
      (pyStrip (pyLower "a|b"), pyStrip (pyLower "c")) ≠ (pyStrip (pyLower "a"), pyStrip (pyLower "b|c")) := by
  refine ⟨?_, ?_, by decide⟩
  · have h : dataString "a|b" "c" = dataString "a" "b|c" := by decide
    exact congrArg sha1Hex h
  · have h : dataString "a|b" "c" = dataString "a" "b|c" := by decide
    exact congrArg (fun s => (sha256Hex s).take 16) h

/-- C3 (amended): `generate_business_id` is a pure function of the
lower-cased, trimmed `(name, address)` pair: two pairs that agree after
normalization always receive the same identifier, for both the SHA-1
(`GYGTransformer`) and truncated SHA-256 (`YochiTransformer`) variants. -/
theorem business_id_stability (n1 a1 n2 a2 : String)
    (hn : pyStrip (pyLower n1) = pyStrip (pyLower n2))
    (ha : pyStrip (pyLower a1) = pyStrip (pyLower a2)) :
    generate_business_id n1 a1 = generate_business_id n2 a2 ∧
      yochiGenerateBusinessId n1 a1 = yochiGenerateBusinessId n2 a2 := by
  have h : dataString n1 a1 = dataString n2 a2 := by
    unfold dataString
    rw [hn, ha]
  exact ⟨congrArg sha1Hex h, congrArg (fun s => (sha256Hex s).take 16) h⟩

/-- C3 witness: the stability theorem applied at a concrete pair that
differs only in case and surrounding whitespace. -/
theorem business_id_stability_witness :
    generate_business_id " GYG Sydney " "1 Main St" =
        generate_business_id "gyg sydney" "1 MAIN ST " ∧
      yochiGenerateBusinessId " GYG Sydney " "1 Main St" =
        yochiGenerateBusinessId "gyg sydney" "1 MAIN ST " :=
  business_id_stability " GYG Sydney " "1 Main St" "gyg sydney" "1 MAIN ST "
    (by decide) (by decide)

/-! ## C4: transformer construction failure is not fatal -/

/-- C4: a site naming a transformer whose constructor requires an
`api_key`, with none supplied, is *not* aborted: `create_transformer`
returns `None` (the `TypeError` is caught), `create_plugins_for_site`
succeeds with no transformer, and the pipeline stores the raw parsed
record without ever calling a transformer — the site contributes
records. -/
theorem transformer_failure_not_fatal :
    createTransformer cfgKeylessTransformer = none ∧
      (createPluginsForSite "site_a" cfgKeylessTransformer).toOption.map
          Plugins.hasTransformer = some false ∧
      Event.save "site_a" 0 [42] ∈ throttledScrape "site_a" cfgKeylessTransformer ∧
      Event.transform "site_a" ∉ throttledScrape "site_a" cfgKeylessTransformer := by
  refine ⟨rfl, rfl, ?_, ?_⟩ <;> decide

/-! ## C5: fetcher injection into parsers -/

/-- C5 (counterexample): a parser class that imports fine, whose
constructor would succeed, but declares no `fetcher` parameter, is *not*
constructed: `create_parser` passes `fetcher=` unconditionally, the
`TypeError` is caught, and `None` is returned. -/
theorem create_parser_always_injects_cex :
    createParser cfgFetcherlessParser = none ∧
      cfgFetcherlessParser.parser.map ParserClass.importOk = some true ∧
      cfgFetcherlessParser.parser.map ParserClass.acceptsFetcher = some false ∧
      cfgFetcherlessParser.parser.map ParserClass.initRaises = some false := by
  decide

/-- C5 (amended): `create_parser` performs no signature introspection; it
always passes the fetcher as a keyword argument.  A parser class whose
constructor declares no `fetcher` parameter therefore fails to construct
(`None` is returned); one that declares it is constructed with the
fetcher injected. -/
theorem create_parser_always_injects (cfg : SiteConfig) (pc : ParserClass)
    (hp : cfg.parser = some pc) (hio : pc.importOk = true) :
    (pc.acceptsFetcher = false → createParser cfg = none) ∧
      (∀ inst, createParser cfg = some inst → inst.fetcherInjected = true) ∧
      (pc.acceptsFetcher = true → pc.initRaises = false →
        createParser cfg = some { isKfc := pc.isKfc, fetcherInjected := true }) := by
  unfold createParser
  rw [hp]
  refine ⟨fun haf => by simp [hio, haf], ?_, fun haf hir => by simp [hio, haf, hir]⟩
  intro inst h
  simp only [hio, if_true] at h
  by_cases hc : pc.acceptsFetcher && !pc.initRaises <;> simp [hc] at h
  exact h.symm ▸ rfl

/-- C5 witness: the amended theorem applied to a parser that declares
the `fetcher` parameter. -/
theorem create_parser_always_injects_witness :
    createParser cfgAcceptingParser =
      some { isKfc := false, fetcherInjected := true } :=
  (create_parser_always_injects cfgAcceptingParser
    { importOk := true, acceptsFetcher := true, initRaises := false, isKfc := false }
    rfl rfl).2.2 rfl rfl

/-! ## C7: missing-count lifecycle -/

/-- C7 (counterexample): the closed-status threshold is the literal 20 in
the SQL text, not a configurable value: with a configured threshold of 5,
a row on its fifth consecutive miss must close according to the claim,
but the code leaves it `ACTIVE`. -/
theorem missing_threshold_not_configurable_cex :
    updateLocationStatuses [rowMissedFour] "gyg_au" ["y"] 100 ≠
        specStatusUpdate 5 [rowMissedFour] "gyg_au" ["y"] 100 ∧
      updateLocationStatuses [rowMissedFour] "gyg_au" ["y"] 100 =
        [{ rowMissedFour with missing_count := 5 }] := by
  constructor <;> decide

/-- C7 (amended): with the threshold fixed at 20, each completed flush's
status update behaves exactly as specified: seen `ACTIVE` rows of the
source reset their missing count and refresh their last-seen date,
absent `ACTIVE` rows increment their missing count, and an `ACTIVE` row
whose missing count reaches 20 transitions to `CLOSED` with the closed
date set. -/
theorem status_update_matches_spec_at_20 (tbl : List Row) (source : String)
    (ids : List String) (t : Nat) :
    updateLocationStatuses tbl source ids t = specStatusUpdate 20 tbl source ids t := by
  unfold updateLocationStatuses specStatusUpdate
  rw [List.map_map, List.map_map]
  exact List.map_congr_left fun r _ => statusRow_code_eq_spec20 source ids t r

end QSR

namespace QSR

/-- Loop contract for `fetchLoop`, by induction on the remaining fuel:
the loop either falls out with the all-none triple, or returns the
triple of the first successful attempt, every earlier attempt having
been a retried transient error. -/
theorem fetchLoop_contract (att : Nat → Attempt) (m : Nat) :
    ∀ fuel i, m + 1 - i ≤ fuel →
      fetchLoop att m i = (none, none, none) ∨
      ∃ k c ct s, i ≤ k ∧ k ≤ m ∧ att k = Attempt.success c ct s ∧
        (∀ j, i ≤ j → j < k → ∃ e, att j = Attempt.transientError e) ∧
        fetchLoop att m i = (some c, some ct, some s) := by
  intro fuel
  induction fuel with
  | zero =>
    intro i hfuel
    have hi : ¬ i ≤ m := by omega
    left
    rw [fetchLoop]
    simp [hi]
  | succ fuel ih =>
    intro i hfuel
    by_cases hi : i ≤ m
    · rw [fetchLoop]
      cases hatt : att i with
      | success c ct s =>
        right
        exact ⟨i, c, ct, s, Nat.le_refl i, hi, hatt,
          fun j h1 h2 => absurd h2 (by omega), by simp [hi, hatt]⟩
      | transientError e =>
        rcases ih (i + 1) (by omega) with h | ⟨k, c, ct, s, hik, hkm, hs, hall, hres⟩
        · left
          simp [hi, hatt, h]
        · right
          refine ⟨k, c, ct, s, by omega, hkm, hs, ?_, by simp [hi, hatt, hres]⟩
          intro j hj1 hj2
          by_cases hji : j = i
          · exact ⟨e, hji ▸ hatt⟩
          · exact hall j (by omega) hj2
      | statusError st =>
        left
        simp [hi, hatt]
      | unexpectedError e =>
        left
        simp [hi, hatt]
    · left
      rw [fetchLoop]
      simp [hi]

/-- C8: `AsyncHTTPXFetcher.fetch` never raises (it is a total function of
the attempt outcomes, every exception class being caught), and its
result is either the all-none triple — missing proxy credentials, a
non-2xx status, an unexpected error, or retries exhausted — or the
fully-non-none triple `(body, content_type, status_code)` of the first
successful attempt, reached after only transient retried errors and
within `max_retries` retries. -/
theorem fetch_never_raises_all_none_or_success (cfg : FetchConfig)
    (att : Nat → Attempt) :
    fetcherFetch cfg att = (none, none, none) ∨
    ∃ k c ct s, k ≤ cfg.maxRetries ∧ att k = Attempt.success c ct s ∧
      (∀ j, j < k → ∃ e, att j = Attempt.transientError e) ∧
      fetcherFetch cfg att = (some c, some ct, some s) := by
  unfold fetcherFetch
  by_cases hproxy : cfg.useProxy &&
      (pyFalsyStr cfg.proxyUsername || pyFalsyStr cfg.proxyPassword)
  · left
    simp [hproxy]
  · rcases fetchLoop_contract att cfg.maxRetries (cfg.maxRetries + 1) 0 (by omega) with
      h | ⟨k, c, ct, s, _, hkm, hs, hall, hres⟩
    · left
      simp [hproxy, h]
    · right
      exact ⟨k, c, ct, s, hkm, hs, fun j hj => hall j (Nat.zero_le j) hj,
        by simp [hproxy, hres]⟩

/-! ## C2: the concurrency semaphore -/

/-- Setting an element for which `p` is false to one for which `p` is
true increases `countP` by one. -/
theorem countP_set_of_incr {α : Type} (p : α → Bool) (l : List α) (i : Nat)
    (v : α) (hi : i < l.length) (h1 : p (l.get ⟨i, hi⟩) = false)
    (h2 : p v = true) : (l.set i v).countP p = l.countP p + 1 := by
  induction l generalizing i with
  | nil => simp at hi
  | cons a tl ih =>
    cases i with
    | zero =>
      simp only [List.get] at h1
      simp [List.countP_cons, h1, h2]
    | succ i =>
      simp only [List.get] at h1
      have := ih i (by simpa using hi) h1
      simp [List.countP_cons, this]
      omega

/-- Setting an element for which `p` is true to one for which `p` is
false decreases `countP` by one. -/
theorem countP_set_of_decr {α : Type} (p : α → Bool) (l : List α) (i : Nat)
    (v : α) (hi : i < l.length) (h1 : p (l.get ⟨i, hi⟩) = true)
    (h2 : p v = false) : (l.set i v).countP p + 1 = l.countP p := by
  induction l generalizing i with
  | nil => simp at hi
  | cons a tl ih =>
    cases i with
    | zero =>
      simp only [List.get] at h1
      simp [List.countP_cons, h1, h2]
    | succ i =>
      simp only [List.get] at h1
      have := ih i (by simpa using hi) h1
      simp [List.countP_cons]
      omega

/-- The initial task list holds the semaphore nowhere. -/
theorem activeCount_initialTasks (cfg : OrchestratorConfig) :
    activeCount (initialTasks cfg) = 0 := by
  unfold initialTasks activeCount
  induction enabledSites cfg with
  | nil => rfl
  | cons a tl ih => simp [List.countP_cons, ih]

/-- A scheduler step never pushes the number of semaphore holders above
the limit, and a finishing task (normal or erroring) releases one unit. -/
theorem semStep_activeCount {limit : Nat} {s s' : List TaskStatus}
    (h : SemStep limit s s') (hle : activeCount s ≤ limit) :
    activeCount s' ≤ limit := by
  cases h with
  | acquire i hi hp hroom =>
    have : activeCount (s.set i TaskStatus.active) = activeCount s + 1 :=
      countP_set_of_incr _ s i TaskStatus.active hi (by rw [hp]; rfl) rfl
    omega
  | finishOk i hi ha =>
    have : activeCount (s.set i TaskStatus.doneOk) + 1 = activeCount s :=
      countP_set_of_decr _ s i TaskStatus.doneOk hi (by rw [ha]; rfl) rfl
    omega
  | finishErr i hi ha =>
    have : activeCount (s.set i TaskStatus.doneErr) + 1 = activeCount s :=
      countP_set_of_decr _ s i TaskStatus.doneErr hi (by rw [ha]; rfl) rfl
    omega

/-- C2: in every state reachable by the scheduler from the start of
`Orchestrator.run`, at most `max_concurrent_workers` site tasks hold the
semaphore (are inside their scrape pipeline); the limit is read from
`global_settings` and defaults to 5 when unset; and a task's completion
— normal or erroring — releases exactly one unit of the semaphore. -/
theorem semaphore_bounds_active_sites :
    (∀ (cfg : OrchestratorConfig) (s : List TaskStatus),
        SemReachable (maxConcurrentWorkers cfg) (initialTasks cfg) s →
        activeCount s ≤ maxConcurrentWorkers cfg) ∧
      (∀ cfg : OrchestratorConfig,
        cfg.globalSettings.lookup "max_concurrent_workers" = none →
        maxConcurrentWorkers cfg = 5) ∧
      (∀ (s : List TaskStatus) (i : Nat) (hi : i < s.length),
        s.get ⟨i, hi⟩ = TaskStatus.active →
        activeCount (s.set i TaskStatus.doneOk) + 1 = activeCount s ∧
          activeCount (s.set i TaskStatus.doneErr) + 1 = activeCount s) := by
  refine ⟨?_, ?_, ?_⟩
  · intro cfg s h
    induction h with
    | refl => simp [activeCount_initialTasks]
    | step hr hs ih => exact semStep_activeCount hs ih
  · intro cfg h
    unfold maxConcurrentWorkers
    rw [h]
    rfl
  · intro s i hi ha
    exact ⟨countP_set_of_decr _ s i TaskStatus.doneOk hi (by rw [ha]; rfl) rfl,
      countP_set_of_decr _ s i TaskStatus.doneErr hi (by rw [ha]; rfl) rfl⟩

/-- C2 witness: with `max_concurrent_workers = 2` and three enabled
sites, the state with tasks one and two active is reachable, and the
theorem bounds its holders by the configured limit. -/
theorem semaphore_bounds_active_sites_witness :
    activeCount [TaskStatus.active, TaskStatus.active, TaskStatus.pending] ≤
        maxConcurrentWorkers cfgThreeSites ∧
      maxConcurrentWorkers cfgUnsetWorkers = 5 := by
  constructor
  · have h1 : SemStep (maxConcurrentWorkers cfgThreeSites)
        [TaskStatus.pending, TaskStatus.pending, TaskStatus.pending]
        [TaskStatus.active, TaskStatus.pending, TaskStatus.pending] :=
      SemStep.acquire _ 0 (by decide) (by decide) (by decide)
    have h2 : SemStep (maxConcurrentWorkers cfgThreeSites)
        [TaskStatus.active, TaskStatus.pending, TaskStatus.pending]
        [TaskStatus.active, TaskStatus.active, TaskStatus.pending] :=
      SemStep.acquire _ 1 (by decide) (by decide) (by decide)
    exact semaphore_bounds_active_sites.1 cfgThreeSites _
      (SemReachable.step (SemReachable.step SemReachable.refl h1) h2)
  · exact semaphore_bounds_active_sites.2.1 cfgUnsetWorkers rfl

end QSR

namespace QSR

/-- Every event of the store-and-close stage belongs to the given site. -/
theorem mem_storeAndClose_site {site : String} {sinks : List StorageInst}
    {batch : List Rec} {e : Event} (h : e ∈ storeAndClose site sinks batch) :
    e.site = site := by
  rcases List.mem_append.1 h with h | h
  · rcases List.mem_map.1 h with ⟨i, _, rfl⟩
    rfl
  · rcases List.mem_filterMap.1 h with ⟨p, _, hp⟩
    by_cases hc : p.2.hasClose <;> simp [hc] at hp
    rw [← hp]
    rfl

/-- Every sink receives the batch in the store-and-close stage. -/
theorem save_mem_storeAndClose {site : String} {sinks : List StorageInst}
    {batch : List Rec} {i : Nat} (hi : i < sinks.length) :
    Event.save site i batch ∈ storeAndClose site sinks batch :=
  List.mem_append.2 (Or.inl (List.mem_map.2 ⟨i, List.mem_range.2 hi, rfl⟩))

/-- A save event in the store-and-close stage carries the stage's batch. -/
theorem mem_storeAndClose_save {site : String} {sinks : List StorageInst}
    {batch : List Rec} {j : Nat} {b : List Rec}
    (h : Event.save site j b ∈ storeAndClose site sinks batch) : b = batch := by
  rcases List.mem_append.1 h with h | h
  · rcases List.mem_map.1 h with ⟨i, _, heq⟩
    injection heq with h1 h2 h3
    exact h3.symm
  · rcases List.mem_filterMap.1 h with ⟨p, _, hp⟩
    by_cases hc : p.2.hasClose <;> simp [hc] at hp

/-- Every event emitted by `_scrape_url` belongs to the given site. -/
theorem scrapeUrl_event_site (site : String) (pl : Plugins) (ub : UrlBehavior)
    (evs : List Event) (err : Option Err) (h : scrapeUrl site pl ub = (evs, err)) :
    ∀ e ∈ evs, e.site = site := by
  unfold scrapeUrl at h
  repeat' split at h
  all_goals (injection h with h1 h2; subst h1)
  all_goals first
    | exact List.forall_mem_append.2
        ⟨by simp [Event.site], fun e he => mem_storeAndClose_site he⟩
    | simp [Event.site]

/-- C6 core: any save event emitted by `_scrape_url` implies that the
call completed without an escaping exception and that *every* configured
sink received the same batch. -/
theorem scrapeUrl_save_all (site : String) (pl : Plugins) (ub : UrlBehavior)
    (evs : List Event) (err : Option Err) (h : scrapeUrl site pl ub = (evs, err))
    (j : Nat) (b : List Rec) (hj : Event.save site j b ∈ evs) :
    err = none ∧ ∀ i, i < pl.sinks.length → Event.save site i b ∈ evs := by
  unfold scrapeUrl at h
  repeat' split at h
  all_goals (injection h with h1 h2; subst h1; subst h2)
  all_goals simp at hj
  all_goals
    (refine ⟨rfl, fun i hi => ?_⟩
     obtain rfl := mem_storeAndClose_save hj
     exact List.mem_append.2 (Or.inr (save_mem_storeAndClose hi)))

end QSR

namespace QSR

/-- Every event of the sequential KFC save loop belongs to the site. -/
theorem mem_seqSaves_site {site : String} {batch : List Rec}
    {raises : Nat → Bool} :
    ∀ (l : List (Nat × StorageInst)) (e : Event), e ∈ seqSaves site batch raises l →
      e.site = site := by
  intro l
  induction l with
  | nil => intro e he; simp [seqSaves] at he
  | cons p rest ih =>
    intro e he
    obtain ⟨i, si⟩ := p
    unfold seqSaves at he
    split at he
    · simp at he
      subst he
      rfl
    · rcases List.mem_cons.1 he with rfl | he'
      · rfl
      · exact ih e he'

/-- Every event emitted by the `start_urls` loop belongs to the site. -/
theorem scrapeUrls_event_site (site : String) (pl : Plugins) :
    ∀ (ubs : List UrlBehavior) (evs : List Event) (err : Option Err),
      scrapeUrls site pl ubs = (evs, err) → ∀ e ∈ evs, e.site = site := by
  intro ubs
  induction ubs with
  | nil =>
    intro evs err h
    unfold scrapeUrls at h
    injection h with h1 h2
    subst h1
    simp
  | cons ub rest ih =>
    intro evs err h
    unfold scrapeUrls at h
    split at h
    · injection h with h1 h2
      subst h1
      exact scrapeUrl_event_site site pl ub _ _ (by assumption)
    · injection h with h1 h2
      subst h1
      intro e he
      rcases List.mem_append.1 he with he' | he'
      · exact scrapeUrl_event_site site pl ub _ _ (by assumption) e he'
      · exact ih _ _ rfl e he'

/-- Every event emitted by `_scrape_website` belongs to the site. -/
theorem scrapeWebsite_event_site (site : String) (cfg : SiteConfig)
    (pl : Plugins) (evs : List Event) (err : Option Err)
    (h : scrapeWebsite site cfg pl = (evs, err)) : ∀ e ∈ evs, e.site = site := by
  unfold scrapeWebsite at h
  split at h
  · repeat' split at h
    all_goals (injection h with h1 h2; subst h1)
    all_goals first
      | exact List.forall_mem_append.2
          ⟨by simp [Event.site], fun e he => mem_seqSaves_site _ e he⟩
      | simp [Event.site]
  · exact scrapeUrls_event_site site pl cfg.startUrls evs err h

/-- Every event emitted by a site's task belongs to that site. -/
theorem throttledScrape_event_site (site : String) (cfg : SiteConfig) :
    ∀ e ∈ throttledScrape site cfg, e.site = site := by
  intro e he
  unfold throttledScrape at he
  rcases List.mem_cons.1 he with rfl | he'
  · rfl
  · split at he'
    · simp at he'
    · exact scrapeWebsite_event_site site cfg _ _ _ rfl e he'

/-- In a list with no duplicate keys, two entries with the same key are
the same entry. -/
theorem fst_nodup_unique {α β : Type} {l : List (α × β)} {n : α} {c c' : β}
    (hnd : (l.map Prod.fst).Nodup) (h1 : (n, c) ∈ l) (h2 : (n, c') ∈ l) :
    c = c' := by
  induction l with
  | nil => simp at h1
  | cons p rest ih =>
    rcases List.mem_cons.1 h1 with rfl | h1' <;>
      rcases List.mem_cons.1 h2 with h2' | h2'
    · injection h2' with _ hc
      exact hc.symm
    · exact absurd (List.mem_map_of_mem Prod.fst h2') (by simp at hnd; simpa using hnd.1)
    · rw [← h2'] at hnd
      exact absurd (List.mem_map_of_mem Prod.fst h1') (by simp at hnd; simpa using hnd.1)
    · exact ih (by simp at hnd; exact hnd.2) h1' h2'

/-! ## C1: failure isolation and clean completion of `run` -/

/-- C1: (a) every enabled site's task appears in `run`'s result with
exactly the trace that site produces in isolation — whatever any sibling
site's pipeline does, including raising at any stage, cannot change or
remove it; (b) `run` returns normally with one completed entry per
enabled site; (c) when plugin loading succeeds, the site's trace is its
pipeline's trace even when the pipeline ends in an escaping exception
(which `throttled_scrape` swallows); (d) when plugin loading fails, the
site is skipped, contributing only its load attempt. -/
theorem orchestrator_failure_isolation :
    (∀ (cfg : OrchestratorConfig) (n : String) (c : SiteConfig),
        (n, c) ∈ cfg.websites → c.enabled = true →
        (n, throttledScrape n c) ∈ orchestratorRun cfg) ∧
      (∀ cfg : OrchestratorConfig,
        (orchestratorRun cfg).map Prod.fst = (enabledSites cfg).map Prod.fst) ∧
      (∀ (n : String) (c : SiteConfig) (pl : Plugins),
        createPluginsForSite n c = .ok pl →
        throttledScrape n c = Event.load n :: (scrapeWebsite n c pl).1) ∧
      (∀ (n : String) (c : SiteConfig) (e : Err),
        createPluginsForSite n c = .error e →
        throttledScrape n c = [Event.load n]) := by
  refine ⟨?_, ?_, ?_, ?_⟩
  · intro cfg n c hmem hen
    unfold orchestratorRun enabledSites
    exact List.mem_map.2 ⟨(n, c), List.mem_filter.mpr ⟨hmem, by simp [hen]⟩, rfl⟩
  · intro cfg
    unfold orchestratorRun
    rw [List.map_map]
    rfl
  · intro n c pl h
    unfold throttledScrape
    rw [h]
  · intro n c e h
    unfold throttledScrape
    rw [h]

/-- C1 witness: the healthy site `site_b` keeps its full isolated trace —
fetch, parse, both store calls and the close — in a run whose sibling
`site_a` raises from its first fetch. -/
theorem orchestrator_failure_isolation_witness :
    ("site_b", throttledScrape "site_b" cfgHealthyB) ∈ orchestratorRun cfgTwoSites ∧
      throttledScrape "site_b" cfgHealthyB =
        [Event.load "site_b", Event.fetch "site_b" "https://b.example/locations",
         Event.parse "site_b", Event.save "site_b" 0 [1, 2], Event.close "site_b" 0] :=
  ⟨orchestrator_failure_isolation.1 cfgTwoSites "site_b" cfgHealthyB
      (List.Mem.tail _ (List.Mem.head _)) rfl,
    by decide⟩

/-! ## C6: per-sink isolation of `save` -/

/-- C6 (counterexample): in the synthetic `KfcParser` invocation the
saves are sequential `await`s inside one `try`: with two instantiated
sinks and the first raising from `save`, the second sink never receives
the batch (while the site task still completes). -/
theorem kfc_sink_isolation_cex :
    (createPluginsForSite "kfc_au" cfgKfcTwoSinks).toOption.map
        (fun pl => pl.sinks.length) = some 2 ∧
      Event.save "kfc_au" 0 [5] ∈ throttledScrape "kfc_au" cfgKfcTwoSinks ∧
      Event.save "kfc_au" 1 [5] ∉ throttledScrape "kfc_au" cfgKfcTwoSinks := by
  refine ⟨rfl, ?_, ?_⟩ <;> decide

/-- C6 (amended): on the per-entry-URL path (`_scrape_url`), the save
outcomes cannot influence the pipeline at all (they are gathered with
`return_exceptions=True` and only logged), and whenever any sink
receives a batch, the call finishes without an escaping exception and
every configured sink receives that same batch. -/
theorem url_path_sink_isolation :
    (∀ (site : String) (pl : Plugins) (ub : UrlBehavior) (f : Nat → Bool),
        scrapeUrl site pl { ub with saveRaises := f } = scrapeUrl site pl ub) ∧
      (∀ (site : String) (pl : Plugins) (ub : UrlBehavior) (j : Nat) (b : List Rec),
        Event.save site j b ∈ (scrapeUrl site pl ub).1 →
        (scrapeUrl site pl ub).2 = none ∧
          ∀ i, i < pl.sinks.length → Event.save site i b ∈ (scrapeUrl site pl ub).1) := by
  constructor
  · intro site pl ub f
    cases ub
    rfl
  · intro site pl ub j b hj
    exact scrapeUrl_save_all site pl ub _ _ rfl j b hj

/-- C6 witness: with two sinks and the first raising, `_scrape_url`
still delivers the batch to the second sink. -/
theorem url_path_sink_isolation_witness :
    Event.save "site_b" 1 [3] ∈ (scrapeUrl "site_b" plTwoSinks ubFirstSinkRaises).1 :=
  (url_path_sink_isolation.2 "site_b" plTwoSinks ubFirstSinkRaises 0 [3]
    (by decide)).2 1 (by decide)

/-! ## C9: disabled sites -/

/-- C9: a configured site whose `enabled` flag is false receives no task:
no event of any task of one full `run` — plugin loading included —
belongs to it, so it contributes zero fetch/parse/transform/store calls
and nothing reaches any sink. -/
theorem disabled_site_zero_calls (cfg : OrchestratorConfig) (n : String)
    (c : SiteConfig) (hmem : (n, c) ∈ cfg.websites) (hdis : c.enabled = false)
    (hnd : (cfg.websites.map Prod.fst).Nodup) :
    ∀ p ∈ orchestratorRun cfg, ∀ e ∈ p.2, Event.site e ≠ n := by
  intro p hp e he
  unfold orchestratorRun at hp
  rcases List.mem_map.1 hp with ⟨⟨m, cm⟩, hqf, rfl⟩
  have hq := List.mem_filter.mp hqf
  have hsite : Event.site e = m := throttledScrape_event_site m cm e he
  intro hcontra
  rw [hsite] at hcontra
  subst hcontra
  have hcc : cm = c := fst_nodup_unique hnd hq.1 hmem
  have hen : cm.enabled = true := by simpa using hq.2
  rw [hcc, hdis] at hen
  exact Bool.false_ne_true hen

/-- C9 witness: with site `a` disabled, no event of the run's only task
(site `b`'s) belongs to `a`. -/
theorem disabled_site_zero_calls_witness :
    Event.site (Event.load "b") ≠ "a" :=
  disabled_site_zero_calls cfgDisabledA "a"
    { enabled := false,
      fetcher := some { importOk := true, initRaises := false },
      parser := some { importOk := true, acceptsFetcher := true,
                       initRaises := false, isKfc := false },
      startUrls := [{ url := "https://a.example/x",
                      fetchResult := .ok (some "x", some "t", some 200),
                      parseResult := .ok [4] }] }
    (List.Mem.head _) rfl (by decide)
    ("b", throttledScrape "b" {}) (by decide) (Event.load "b") (by decide)

end QSR

namespace QSR

/-- Overwriting a source's bucket makes `bufGet` return the new items. -/
theorem bufGet_bufSet_self (buf : Buffer) (src : String) (items : List Item) :
    bufGet (bufSet buf src items) src = items := by
  induction buf with
  | nil => simp [bufSet, bufGet, List.lookup]
  | cons p rest ih =>
    by_cases hp : p.1 = src
    · simp [bufSet, hp, bufGet, List.lookup]
    · have hb : (src == p.1) = false := beq_eq_false_iff_ne.mpr (Ne.symm hp)
      simp only [bufSet, hp, if_false, bufGet, List.lookup, hb]
      exact ih

/-- Overwriting one source's bucket leaves the others unchanged. -/
theorem bufGet_bufSet_ne (buf : Buffer) (src : String) (items : List Item)
    (s : String) (hne : s ≠ src) :
    bufGet (bufSet buf src items) s = bufGet buf s := by
  induction buf with
  | nil =>
    have hb : (s == src) = false := beq_eq_false_iff_ne.mpr hne
    simp [bufSet, bufGet, List.lookup, hb]
  | cons p rest ih =>
    by_cases hp : p.1 = src
    · subst hp
      have hb : (s == p.1) = false := beq_eq_false_iff_ne.mpr hne
      simp [bufSet, bufGet, List.lookup, hb]
    · simp only [bufSet, hp, if_false]
      by_cases hsp : s = p.1
      · simp [bufGet, List.lookup, hsp]
      · have hb : (s == p.1) = false := beq_eq_false_iff_ne.mpr hsp
        simp only [bufGet, List.lookup, hb]
        exact ih

/-- `MemoryBuffer.add` appends one record to the source's bucket. -/
theorem bufGet_bufAdd_self (buf : Buffer) (src : String) (it : Item) :
    bufGet (bufAdd buf src it) src = bufGet buf src ++ [it] := by
  unfold bufAdd
  rw [bufGet_bufSet_self]

/-- `MemoryBuffer.add` leaves other sources' buckets unchanged. -/
theorem bufGet_bufAdd_ne (buf : Buffer) (src : String) (it : Item)
    (s : String) (hne : s ≠ src) :
    bufGet (bufAdd buf src it) s = bufGet buf s := by
  unfold bufAdd
  rw [bufGet_bufSet_ne _ _ _ _ hne]

/-- Adding a record list appends it to the source's bucket. -/
theorem bufGet_bufAddAll_self (items : List Item) :
    ∀ (buf : Buffer) (src : String),
      bufGet (bufAddAll buf src items) src = bufGet buf src ++ items := by
  induction items with
  | nil => intro buf src; simp [bufAddAll]
  | cons it its ih =>
    intro buf src
    unfold bufAddAll at ih ⊢
    rw [List.foldl_cons, ih, bufGet_bufAdd_self, List.append_assoc]
    rfl

/-- Adding a record list leaves other sources' buckets unchanged. -/
theorem bufGet_bufAddAll_ne (items : List Item) :
    ∀ (buf : Buffer) (src s : String), s ≠ src →
      bufGet (bufAddAll buf src items) s = bufGet buf s := by
  induction items with
  | nil => intro buf src s _; simp [bufAddAll]
  | cons it its ih =>
    intro buf src s hne
    unfold bufAddAll at ih ⊢
    rw [List.foldl_cons, ih _ _ _ hne, bufGet_bufAdd_ne _ _ _ _ hne]

/-- A source absent from the buffer's key list has an empty bucket. -/
theorem bufGet_eq_nil_of_not_mem_keys (buf : Buffer) (s : String)
    (h : s ∉ buf.map Prod.fst) : bufGet buf s = [] := by
  induction buf with
  | nil => rfl
  | cons p rest ih =>
    simp only [List.map_cons, List.mem_cons] at h
    push_neg at h
    have hb : (s == p.1) = false := beq_eq_false_iff_ne.mpr h.1
    simp only [bufGet, List.lookup, hb]
    exact ih h.2

/-- An empty buffer has only empty buckets. -/
theorem bufGet_eq_nil_of_bufSize_zero (buf : Buffer) (h : bufSize buf = 0) :
    ∀ s, bufGet buf s = [] := by
  induction buf with
  | nil => intro s; rfl
  | cons p rest ih =>
    intro s
    simp only [bufSize, List.map_cons, List.sum_cons] at h
    have hp : p.2.length = 0 := by omega
    have hrest : bufSize rest = 0 := by unfold bufSize; omega
    by_cases hsp : s = p.1
    · simp [bufGet, List.lookup, hsp, List.length_eq_zero.1 hp]
    · have hb : (s == p.1) = false := beq_eq_false_iff_ne.mpr hsp
      simp only [bufGet, List.lookup, hb]
      exact ih hrest s

/-- Closed form of `_flush_buffer`: the three outcomes are an empty
bucket (nothing to do), a successful commit, and a caught failure that
restores the items. -/
theorem flushBuffer_eq (st : PgState) (src : String) (cfg : PgConfig)
    (fOk : String → Bool) :
    flushBuffer st src cfg fOk =
      if (bufGet st.buffer src).isEmpty then
        ({ st with buffer := bufSet st.buffer src [] }, [])
      else if cfg.connOk && fOk src then
        ({ st with buffer := bufSet st.buffer src [] },
          [DbEvent.flush src (bufGet st.buffer src)])
      else
        ({ st with
            buffer := (bufAddAll (bufSet st.buffer src []) src (bufGet st.buffer src)) },
          []) := by
  unfold flushBuffer
  by_cases hconn : cfg.connOk <;> by_cases hf : fOk src <;> simp [hconn, hf]

/-- `_flush_buffer` never changes `last_config`. -/
theorem flushBuffer_lastConfig (st : PgState) (src : String) (cfg : PgConfig)
    (fOk : String → Bool) :
    (flushBuffer st src cfg fOk).1.lastConfig = st.lastConfig := by
  rw [flushBuffer_eq]
  repeat' split
  all_goals rfl

/-- A failing flush — missing connection string or a database error —
commits nothing and restores the source's buffered items. -/
theorem flushBuffer_fail (st : PgState) (src : String) (cfg : PgConfig)
    (fOk : String → Bool) (h : cfg.connOk = false ∨ fOk src = false) :
    (flushBuffer st src cfg fOk).2 = [] ∧
      bufGet (flushBuffer st src cfg fOk).1.buffer src = bufGet st.buffer src := by
  have hcf : (cfg.connOk && fOk src) = false := by
    rcases h with h | h <;> simp [h]
  rw [flushBuffer_eq]
  by_cases hempty : (bufGet st.buffer src).isEmpty
  · rw [if_pos hempty]
    exact ⟨rfl, by rw [bufGet_bufSet_self, List.isEmpty_iff.1 hempty]⟩
  · rw [if_neg hempty]
    constructor
    · simp [hcf]
    · simp only [hcf, Bool.false_eq_true, if_false]
      rw [bufGet_bufAddAll_self, bufGet_bufSet_self, List.nil_append]

/-- A flush touches no other source's bucket. -/
theorem flushBuffer_other (st : PgState) (src : String) (cfg : PgConfig)
    (fOk : String → Bool) (s : String) (hne : s ≠ src) :
    bufGet (flushBuffer st src cfg fOk).1.buffer s = bufGet st.buffer s := by
  rw [flushBuffer_eq]
  repeat' split
  all_goals first
    | exact bufGet_bufSet_ne _ _ _ _ hne
    | rw [show ({ st with
            buffer := (bufAddAll (bufSet st.buffer src []) src (bufGet st.buffer src)) } :
            PgState).buffer =
          bufAddAll (bufSet st.buffer src []) src (bufGet st.buffer src) from rfl,
        bufGet_bufAddAll_ne _ _ _ _ hne, bufGet_bufSet_ne _ _ _ _ hne]

/-- A successful flush (connection present, database session succeeding)
leaves the source's bucket empty. -/
theorem flushBuffer_success (st : PgState) (src : String) (cfg : PgConfig)
    (fOk : String → Bool) (hc : cfg.connOk = true) (hf : fOk src = true) :
    bufGet (flushBuffer st src cfg fOk).1.buffer src = [] := by
  have hcf : (cfg.connOk && fOk src) = true := by simp [hc, hf]
  rw [flushBuffer_eq]
  by_cases hempty : (bufGet st.buffer src).isEmpty
  · rw [if_pos hempty]
    exact bufGet_bufSet_self _ _ _
  · rw [if_neg hempty]
    simp only [hcf, if_true]
    exact bufGet_bufSet_self _ _ _

end QSR

namespace QSR

/-- The per-source flush loop of `close`, when every flush succeeds,
empties exactly the buckets of the keys it visits. -/
theorem pgClose_fold_clears (cfg : PgConfig) (fOk : String → Bool)
    (hc : cfg.connOk = true) (hf : ∀ s, fOk s = true) :
    ∀ (keys : List String) (st : PgState) (evs : List DbEvent) (s : String),
      bufGet ((keys.foldl
        (fun acc src =>
          if (bufGet acc.1.buffer src).length > 0 then
            let r := flushBuffer acc.1 src cfg fOk
            (r.1, acc.2 ++ r.2)
          else acc)
        (st, evs)).1.buffer) s = if s ∈ keys then [] else bufGet st.buffer s := by
  intro keys
  induction keys with
  | nil =>
    intro st evs s
    simp
  | cons k rest ih =>
    intro st evs s
    rw [List.foldl_cons]
    split
    next hlen =>
      rw [ih]
      by_cases hsr : s ∈ rest
      · simp [hsr]
      · by_cases hsk : s = k
        · subst hsk
          simp only [List.mem_cons, hsr, or_false, if_pos rfl, hsr, if_false]
          exact flushBuffer_success _ _ _ _ hc (hf s)
        · simp only [List.mem_cons, hsk, hsr, or_self, if_false]
          exact flushBuffer_other _ _ _ _ _ hsk
    next hlen =>
      rw [ih]
      by_cases hsr : s ∈ rest
      · simp [hsr]
      · by_cases hsk : s = k
        · subst hsk
          have h0 : ¬ 0 < (bufGet st.buffer s).length := by simpa using hlen
          have hnil : bufGet st.buffer s = [] :=
            List.eq_nil_of_length_eq_zero (by omega)
          simp [List.mem_cons, hsr, hnil]
        · simp [List.mem_cons, hsk, hsr]

/-- C10: `PostgresStorage.save` is a total state transformation (every
exception is caught): (1) an empty batch is a no-op; (2) a save writes
to the database only when it leaves the source's buffer at
`max_size = 100` or more items; (3) below the threshold a save only
appends the validated, deduplicated records to the source's in-memory
bucket, records the config, and commits nothing; (4) `MemoryBuffer.add`
appends per source and leaves sibling sources untouched; (5) a failing
flush commits nothing and puts the items back; (6) `close` flushes every
remaining bucket (emptying the whole buffer when the connection and
sessions succeed). -/
theorem pg_save_buffers_until_threshold :
    (∀ (st : PgState) (cfg : PgConfig) (fOk : String → Bool),
        pgSave st [] cfg fOk = (st, [])) ∧
      (∀ (st : PgState) (d : Item) (ds : List Item) (cfg : PgConfig)
          (fOk : String → Bool),
        (pgSave st (d :: ds) cfg fOk).2 ≠ [] →
        shouldFlush (bufAddAll st.buffer (sourceOf d)
          ((deduplicateData (d :: ds)).filter validateLocation)) (sourceOf d) = true) ∧
      (∀ (st : PgState) (d : Item) (ds : List Item) (cfg : PgConfig)
          (fOk : String → Bool),
        shouldFlush (bufAddAll st.buffer (sourceOf d)
            ((deduplicateData (d :: ds)).filter validateLocation)) (sourceOf d) = false →
        pgSave st (d :: ds) cfg fOk =
          ({ buffer := bufAddAll st.buffer (sourceOf d)
                ((deduplicateData (d :: ds)).filter validateLocation),
              lastConfig := some cfg }, [])) ∧
      (∀ (buf : Buffer) (src : String) (items : List Item) (s : String),
        bufGet (bufAddAll buf src items) src = bufGet buf src ++ items ∧
          (s ≠ src → bufGet (bufAddAll buf src items) s = bufGet buf s)) ∧
      (∀ (st : PgState) (src : String) (cfg : PgConfig) (fOk : String → Bool),
        cfg.connOk = false ∨ fOk src = false →
        (flushBuffer st src cfg fOk).2 = [] ∧
          bufGet (flushBuffer st src cfg fOk).1.buffer src = bufGet st.buffer src) ∧
      (∀ (st : PgState) (fOk : String → Bool) (cfg : PgConfig),
        st.lastConfig = some cfg → cfg.connOk = true → (∀ s, fOk s = true) →
        ∀ s, bufGet (pgClose st fOk).1.buffer s = []) := by
  refine ⟨?_, ?_, ?_, ?_, ?_, ?_⟩
  · intro st cfg fOk
    rfl
  · intro st d ds cfg fOk hne
    by_cases hsf : shouldFlush (bufAddAll st.buffer (sourceOf d)
        ((deduplicateData (d :: ds)).filter validateLocation)) (sourceOf d)
    · exact hsf
    · exfalso
      apply hne
      simp [pgSave, hsf]
  · intro st d ds cfg fOk hsf
    simp [pgSave, hsf]
  · intro buf src items s
    exact ⟨bufGet_bufAddAll_self items buf src,
      fun hne => bufGet_bufAddAll_ne items buf src s hne⟩
  · intro st src cfg fOk h
    exact flushBuffer_fail st src cfg fOk h
  · intro st fOk cfg hlc hc hf s
    unfold pgClose
    by_cases hsz : bufSize st.buffer > 0
    · rw [if_pos hsz, hlc]
      rw [pgClose_fold_clears cfg fOk hc hf]
      by_cases hk : s ∈ st.buffer.map Prod.fst
      · rw [if_pos hk]
      · rw [if_neg hk]
        exact bufGet_eq_nil_of_not_mem_keys _ _ hk
    · rw [if_neg hsz]
      exact bufGet_eq_nil_of_bufSize_zero st.buffer (by omega) s

/-- C10 witness: one valid record buffers without touching the database,
and `close` then flushes it. -/
theorem pg_save_buffers_until_threshold_witness :
    pgSave { buffer := [], lastConfig := none } [itemValid]
        { connOk := true } (fun _ => true) = (pgStateSmall, []) ∧
      bufGet (pgClose pgStateSmall (fun _ => true)).1.buffer "gyg_au" = [] := by
  constructor
  · exact (pg_save_buffers_until_threshold.2.2.1
      { buffer := [], lastConfig := none } itemValid [] { connOk := true }
      (fun _ => true) (by decide)).trans (by decide)
  · exact pg_save_buffers_until_threshold.2.2.2.2.2
      pgStateSmall (fun _ => true) { connOk := true } rfl rfl (fun _ => rfl) "gyg_au"

end QSR
